import Mathlib

/-!
Verification of the L-Systems repository core: the rule-string parser
(`settings.parse_rules`), the grammar engine (`l_system.LSystem.generate` and the
older variant in `l_system_visualizer.py`), the turtle interpreter
(`drawing_turtle.Turtle.interpret`), and the fit transform
(`renderer.Renderer._calculate_scale_offset` and the inline transform in
`l_system_visualizer.generate_and_draw`).

Modelling conventions:
* Python floats are modelled as exact rationals (`ℚ`).
* `math.cos`/`math.sin` composed with the degrees-to-radians conversion are
  abstracted as parameter functions `cosD sinD : ℚ → ℚ`; headings are kept in
  degrees, which is faithful because `math.radians` is linear and the code only
  ever adds and subtracts angles before taking `cos`/`sin`.
* The global `random` module is modelled as an explicit stream `rand : ℕ → ℚ`
  of draws in `[0,1]` together with a counter `k` in the turtle state;
  `random.uniform(a, b) = a + (b - a) * random.random()`.
-/

namespace LSystems

/-! ### Rule table (Python dict of strings, insertion with overwrite) -/

/-- An association list standing for a Python `dict`; `dictInsert` overwrites an
existing key in place (so the last insertion for a key wins on lookup), else
appends, exactly like `rules[key] = value`. -/
def dictInsert : List (String × String) → String → String → List (String × String)
  | [], k, v => [(k, v)]
  | (k', v') :: rest, k, v =>
      if k' = k then (k', v) :: rest else (k', v') :: dictInsert rest k v

/-! ### Rule-string parser (`settings.parse_rules`) -/

/-- Python `str.isspace` characters relevant to `str.strip()` (ASCII whitespace). -/
def isSpace (c : Char) : Bool :=
  c = ' ' ∨ c = '\t' ∨ c = '
' ∨ c = '\r' ∨ c = '\x0b' ∨ c = '\x0c'

/-- Left strip: drop leading whitespace. -/
def lstrip (l : List Char) : List Char := l.dropWhile (fun c => isSpace c)

/-- Right strip: drop trailing whitespace. -/
def rstrip (l : List Char) : List Char := (lstrip l.reverse).reverse

/-- Python `str.strip()`: drop surrounding whitespace. -/
def strip (l : List Char) : List Char := rstrip (lstrip l)

/-- Python `s.split(sep)` for a single-character separator: always returns at
least one (possibly empty) fragment. -/
def splitOnChar (sep : Char) : List Char → List (List Char)
  | [] => [[]]
  | c :: rest =>
      match splitOnChar sep rest with
      | [] => [[c]]
      | f :: fs => if c = sep then [] :: f :: fs else (c :: f) :: fs

/-- Python `s.split(':', 1)`: split at the first colon; if there is no colon the
whole input is the first component (only used when a colon is present). -/
def splitFirstColon : List Char → List Char × List Char
  | [] => ([], [])
  | c :: rest =>
      if c = ':' then ([], rest)
      else
        let p := splitFirstColon rest
        (c :: p.1, p.2)

/-- One fold step of the parser loop in `settings.parse_rules`: strip the
fragment, require a colon, split at the first colon, strip key and value,
insert if the key is nonempty. -/
def parseRulesStep (tbl : List (String × String)) (frag : List Char) :
    List (String × String) :=
  let f := strip frag
  if ':' ∈ f then
    let p := splitFirstColon f
    let k := strip p.1
    let v := strip p.2
    if k ≠ [] then dictInsert tbl ⟨k⟩ ⟨v⟩ else tbl
  else tbl

/-- Function `settings.parse_rules`, translated from the source: guard for an empty
string or a string with no colon, then split on commas and process each
fragment. -/
def parse_rules (s : String) : List (String × String) :=
  let l := s.toList
  if l = [] ∨ ':' ∉ l then []
  else (splitOnChar ',' l).foldl parseRulesStep []

/-- The parsing pipeline exactly as the specification words it: split on `,`,
keep only fragments containing `:`, split each kept fragment on the first `:`,
trim symbol and replacement, discard empty symbols, insert sequentially. -/
def parseRulesSpecStep (tbl : List (String × String)) (frag : List Char) :
    List (String × String) :=
  if ':' ∈ frag then
    let p := splitFirstColon frag
    let k := strip p.1
    let v := strip p.2
    if k ≠ [] then dictInsert tbl ⟨k⟩ ⟨v⟩ else tbl
  else tbl

/-- Rule parsing as described by the specification (no guard, no pre-strip of
the fragment). -/
def parse_rules_spec (s : String) : List (String × String) :=
  ((splitOnChar ',' s.toList).filter (fun f => decide (':' ∈ f))).foldl
    parseRulesSpecStep []

/-! ### Grammar engine (`l_system.LSystem` and the `l_system_visualizer` variant) -/

/-- The `LSystem` object state: the axiom (`axm`), rules and the mutable
`current_string`. -/
structure LSys where
  axm : List Char
  rules : List (String × String)
  current : List Char
  deriving DecidableEq

/-- Lookup `self.rules.get(char, char)`: look the one-character string up in the rule
dict, defaulting to the character itself. -/
def rulesGet (rules : List (String × String)) (c : Char) : List Char :=
  match rules.lookup (⟨[c]⟩ : String) with
  | some r => r.toList
  | none => [c]

/-- One synchronous generation pass: the body of the `for char in
self.current_string` loop building `next_string`. -/
def rewriteOnce (rules : List (String × String)) (s : List Char) : List Char :=
  s.flatMap (rulesGet rules)

/-- Method `LSystem.generate` from `l_system.py`: reset `current_string` to the axiom,
then rewrite `iterations` times (`range(n)` is empty for `n ≤ 0`). Returns the
produced string together with the updated object state. -/
def generate (st : LSys) (iterations : ℤ) : List Char × LSys :=
  let r := (rewriteOnce st.rules)^[iterations.toNat] st.axm
  (r, { st with current := r })

/-- Method `LSystem.generate` from `l_system_visualizer.py`: identical loop but with
no reset, so rewriting starts from whatever `current_string` holds. -/
def generateViz (st : LSys) (iterations : ℤ) : List Char × LSys :=
  let r := (rewriteOnce st.rules)^[iterations.toNat] st.current
  (r, { st with current := r })

/-! ### Turtle interpreter (`drawing_turtle.Turtle`) -/

/-- The mutable fields of a `Turtle` object, plus the counter `k` indexing the
ambient random stream. -/
structure TurtleState where
  x : ℚ
  y : ℚ
  angle : ℚ
  stack : List ((ℚ × ℚ) × ℚ)
  drawing_commands : List ((ℚ × ℚ) × (ℚ × ℚ))
  min_x : ℚ
  max_x : ℚ
  min_y : ℚ
  max_y : ℚ
  k : ℕ
  deriving DecidableEq

/-- Everything `interpret` reads besides the sequence: the abstract trig
functions, the random stream, and the drawing parameters. -/
structure TurtleParams where
  cosD : ℚ → ℚ
  sinD : ℚ → ℚ
  rand : ℕ → ℚ
  angle_deg : ℚ
  length : ℚ
  angle_variation_deg : ℚ
  length_variation_factor : ℚ

/-- Python `random.uniform(a, b)` driven by one stream draw `r ∈ [0,1]`. -/
def uniform (a b r : ℚ) : ℚ := a + (b - a) * r

/-- Method `Turtle.reset`: position and heading at the configured start, empty stack,
no commands, bounds collapsed to the start point. -/
def initTurtle (sx sy sa : ℚ) : TurtleState :=
  { x := sx, y := sy, angle := sa, stack := [], drawing_commands := []
    min_x := sx, max_x := sx, min_y := sy, max_y := sy, k := 0 }

/-- Method `Turtle.move_forward` followed by `Turtle._update_bounds`: advance the
position, append the segment, fold the new position into the bounds. -/
def move_forward (p : TurtleParams) (len : ℚ) (s : TurtleState) : TurtleState :=
  let nx := s.x + len * p.cosD s.angle
  let ny := s.y - len * p.sinD s.angle
  { s with
    x := nx, y := ny
    drawing_commands := s.drawing_commands ++ [((s.x, s.y), (nx, ny))]
    min_x := min s.min_x nx, max_x := max s.max_x nx
    min_y := min s.min_y ny, max_y := max s.max_y ny }

/-- One iteration of the `for command in lsystem_string` loop in
`Turtle.interpret`. -/
def step (p : TurtleParams) (s : TurtleState) (c : Char) : TurtleState :=
  if c = 'F' ∨ c = 'A' ∨ c = 'B' then
    let u := uniform (1 - p.length_variation_factor) (1 + p.length_variation_factor)
      (p.rand s.k)
    let len := p.length * u
    let s' := { s with k := s.k + 1 }
    if 0 < len then move_forward p len s' else s'
  else if c = '+' then
    let j := uniform (-p.angle_variation_deg) p.angle_variation_deg (p.rand s.k)
    { s with angle := s.angle + (p.angle_deg + j), k := s.k + 1 }
  else if c = '-' then
    let j := uniform (-p.angle_variation_deg) p.angle_variation_deg (p.rand s.k)
    { s with angle := s.angle - (p.angle_deg + j), k := s.k + 1 }
  else if c = '[' then
    { s with stack := ((s.x, s.y), s.angle) :: s.stack }
  else if c = ']' then
    match s.stack with
    | [] => s
    | ((px, py), pa) :: rest => { s with x := px, y := py, angle := pa, stack := rest }
  else s

/-- Method `Turtle.interpret`: reset, fold the command loop over the sequence, then
widen any degenerate bounds axis by one unit. Returns `(drawing_commands,
(min_x, min_y, max_x, max_y))`. -/
def interpret (p : TurtleParams) (sx sy sa : ℚ) (seq : List Char) :
    List ((ℚ × ℚ) × (ℚ × ℚ)) × (ℚ × ℚ × ℚ × ℚ) :=
  let s := seq.foldl (step p) (initTurtle sx sy sa)
  let mx := if s.min_x = s.max_x then s.max_x + 1 else s.max_x
  let my := if s.min_y = s.max_y then s.max_y + 1 else s.max_y
  (s.drawing_commands, (s.min_x, s.min_y, mx, my))

/-! ### Fit transform (`renderer.Renderer._calculate_scale_offset` and the
inline transform in `l_system_visualizer.generate_and_draw`) -/

/-- The `Renderer` configuration. -/
structure Renderer where
  screen_width : ℚ
  screen_height : ℚ
  padding : ℚ

/-- Method `Renderer._calculate_scale_offset`, translated from the source: each axis
scale falls back to `1` when that bounds dimension is not positive, and the
final scale is the min of the two. -/
def calcScaleOffset (r : Renderer) (bounds : ℚ × ℚ × ℚ × ℚ) : ℚ × (ℚ × ℚ) :=
  let min_x := bounds.1
  let min_y := bounds.2.1
  let max_x := bounds.2.2.1
  let max_y := bounds.2.2.2
  let w := max_x - min_x
  let h := max_y - min_y
  let dw := r.screen_width - 2 * r.padding
  let dh := r.screen_height - 2 * r.padding
  let sx := if 0 < w then dw / w else 1
  let sy := if 0 < h then dh / h else 1
  let s := min sx sy
  let ox := r.padding + (dw - w * s) / 2 - min_x * s
  let oy := r.padding + (dh - h * s) / 2 - min_y * s
  (s, (ox, oy))

/-- Constant `DRAWING_PADDING` from `l_system_visualizer.py`. -/
def DRAWING_PADDING : ℚ := 50

/-- The scale-factor computation inlined in
`l_system_visualizer.generate_and_draw`: cascading cases, with the
degenerate-axis cases scaling from the nonzero axis alone, uncapped. -/
def vizScaleFactor (screen_width screen_height : ℚ) (bounds : ℚ × ℚ × ℚ × ℚ) : ℚ :=
  let min_x := bounds.1
  let min_y := bounds.2.1
  let max_x := bounds.2.2.1
  let max_y := bounds.2.2.2
  let w := max_x - min_x
  let h := max_y - min_y
  let dw := screen_width - 2 * DRAWING_PADDING
  let dh := screen_height - 2 * DRAWING_PADDING
  if 0 < w ∧ 0 < h then min (dw / w) (dh / h)
  else if 0 < w then dw / w
  else if 0 < h then dh / h
  else 1



/-! ### Concrete parameter bundles used by witnesses and counterexamples -/

/-- Jitter-free parameters with trivial trig stand-ins, matching the default
settings (angle 25, length 5). -/
def testParams : TurtleParams :=
  { cosD := fun _ => 1, sinD := fun _ => 0, rand := fun _ => 0
    angle_deg := 25, length := 5, angle_variation_deg := 0
    length_variation_factor := 0 }

/-- Parameters with a length jitter factor of 2: the draw `r = 0` samples the
multiplier `uniform(1-2, 1+2, 0) = -1`, so every forward move is skipped. -/
def badParams : TurtleParams :=
  { cosD := fun _ => 1, sinD := fun _ => 0, rand := fun _ => 0
    angle_deg := 25, length := 1, angle_variation_deg := 0
    length_variation_factor := 2 }

/-! ### Bounds invariant -/

/-- A point lies inside the bounds rectangle tracked by a turtle state. -/
def encl (s : TurtleState) (pt : ℚ × ℚ) : Prop :=
  s.min_x ≤ pt.1 ∧ pt.1 ≤ s.max_x ∧ s.min_y ≤ pt.2 ∧ pt.2 ≤ s.max_y

/-- The loop invariant of `Turtle.interpret`: the current position, every saved
stack position and every endpoint of every emitted segment lie inside the
tracked bounds. -/
def Inv (s : TurtleState) : Prop :=
  encl s (s.x, s.y) ∧
  (∀ e ∈ s.stack, encl s e.1) ∧
  (∀ g ∈ s.drawing_commands, encl s g.1 ∧ encl s g.2)



/-! ### C9: negative iteration counts -/

/-- C9: passing a negative iteration count to `LSystem.generate` executes the
rewrite loop zero times (`range(n)` is empty), so the axiom is returned
unchanged and no error is raised. -/
theorem generate_neg_iterations (st : LSys) (n : ℤ) (h : n < 0) :
    (generate st n).1 = st.axm := by
  have hn : n.toNat = 0 := Int.toNat_of_nonpos h.le
  simp [generate, hn]

/-- Witness for C9 at `n = -1`. -/
theorem generate_neg_iterations_witness :
    (-1 : ℤ) < 0 ∧
      (generate ⟨['F'], [("F", "FF")], ['F']⟩ (-1)).1 = ['F'] :=
  ⟨by decide, generate_neg_iterations ⟨['F'], [("F", "FF")], ['F']⟩ (-1) (by decide)⟩

/-! ### C2: the grammar engine is an n-fold parallel rewrite -/

/-- C2 (amended): `l_system.py`'s `generate` returns the `n`-fold parallel
rewrite of the axiom, returns the axiom at `n = 0`, and yields the identical
string on a repeated call with the same `n` on the same instance (it resets
`current_string` to the axiom first); the `l_system_visualizer.py` variant
agrees with the `n`-fold rewrite of the axiom only on a fresh instance whose
`current_string` still equals the axiom. -/
theorem generate_iterates (st : LSys) (n : ℕ) :
    (generate st (n : ℤ)).1 = (rewriteOnce st.rules)^[n] st.axm ∧
    (generate st 0).1 = st.axm ∧
    (generate (generate st (n : ℤ)).2 (n : ℤ)).1 = (generate st (n : ℤ)).1 ∧
    (generateViz ⟨st.axm, st.rules, st.axm⟩ (n : ℤ)).1 =
      (rewriteOnce st.rules)^[n] st.axm := by
  refine ⟨by simp [generate], by simp [generate], by simp [generate], by simp [generateViz]⟩

/-- Counterexample for C2 as stated: on the `l_system_visualizer.py` variant,
two successive calls of `generate(1)` on the same instance (axiom `"F"`, rule
`F → FF`) return `"FF"` and then `"FFFF"`, not the identical string. -/
theorem generateViz_repeated_call_differs :
    (generateViz (generateViz ⟨['F'], [("F", "FF")], ['F']⟩ 1).2 1).1 ≠
      (generateViz ⟨['F'], [("F", "FF")], ['F']⟩ 1).1 := by
  decide

/-! ### C1: degenerate-bounds scale in the fit transform -/

/-- Counterexample for C1 as stated: with viewport 800×600, padding 50 and
degenerate bounds `(0, 0, 0, 2)` (width 0, height 2), the claim predicts scale
`(600 - 2·50)/2 = 250`, but `Renderer._calculate_scale_offset` returns
`min(1, 250) = 1` because the zero axis contributes the fallback scale `1` to
the `min`. -/
theorem calcScaleOffset_degenerate_clamped :
    (calcScaleOffset ⟨800, 600, 50⟩ (0, 0, 0, 2)).1 = 1 ∧
    (calcScaleOffset ⟨800, 600, 50⟩ (0, 0, 0, 2)).1 ≠
      ((600 : ℚ) - 2 * 50) / (2 - 0) := by
  have h : (calcScaleOffset ⟨800, 600, 50⟩ (0, 0, 0, 2)).1 = 1 := by
    norm_num [calcScaleOffset, min_def]
  refine ⟨h, ?_⟩
  rw [h]
  norm_num

/-- C1 (amended): when exactly one bounds dimension is zero,
`Renderer._calculate_scale_offset` returns the nonzero-axis ratio capped at 1
(the degenerate axis contributes a fallback scale of 1 to the `min`), whereas
the inline transform in `generate_and_draw` returns the uncapped nonzero-axis
ratio. -/
theorem degenerate_scale_formulas (r : Renderer) (sw sh min_x min_y max_x max_y : ℚ) :
    (max_x - min_x = 0 → 0 < max_y - min_y →
      (calcScaleOffset r (min_x, min_y, max_x, max_y)).1 =
        min 1 ((r.screen_height - 2 * r.padding) / (max_y - min_y))) ∧
    (max_y - min_y = 0 → 0 < max_x - min_x →
      (calcScaleOffset r (min_x, min_y, max_x, max_y)).1 =
        min ((r.screen_width - 2 * r.padding) / (max_x - min_x)) 1) ∧
    (max_x - min_x = 0 → 0 < max_y - min_y →
      vizScaleFactor sw sh (min_x, min_y, max_x, max_y) =
        (sh - 2 * DRAWING_PADDING) / (max_y - min_y)) ∧
    (max_y - min_y = 0 → 0 < max_x - min_x →
      vizScaleFactor sw sh (min_x, min_y, max_x, max_y) =
        (sw - 2 * DRAWING_PADDING) / (max_x - min_x)) := by
  refine ⟨fun hw hh => ?_, fun hh hw => ?_, fun hw hh => ?_, fun hh hw => ?_⟩
  · simp only [calcScaleOffset, hw, lt_irrefl, if_false, if_pos hh]
  · simp only [calcScaleOffset, hh, lt_irrefl, if_false, if_pos hw]
  · simp only [vizScaleFactor, hw, lt_irrefl, false_and, if_false, if_pos hh]
  · simp only [vizScaleFactor, hh, lt_irrefl, and_false, if_false, if_pos hw]


/-! ### Characterization of single interpreter steps -/

/-- A draw command with positive sampled length moves forward (after consuming
one random draw). -/
theorem step_draw (p : TurtleParams) (s : TurtleState) (c : Char)
    (hc : c = 'F' ∨ c = 'A' ∨ c = 'B')
    (h : 0 < p.length * uniform (1 - p.length_variation_factor)
      (1 + p.length_variation_factor) (p.rand s.k)) :
    step p s c = move_forward p
      (p.length * uniform (1 - p.length_variation_factor)
        (1 + p.length_variation_factor) (p.rand s.k))
      { s with k := s.k + 1 } := by
  simp only [step, if_pos hc]
  rw [if_pos h]

/-- Command `+` turns right by the jittered angle. -/
theorem step_plus (p : TurtleParams) (s : TurtleState) :
    step p s '+' = { s with
      angle := s.angle + (p.angle_deg +
        uniform (-p.angle_variation_deg) p.angle_variation_deg (p.rand s.k))
      k := s.k + 1 } := by
  simp [step]

/-- Command `-` turns left by the jittered angle. -/
theorem step_minus (p : TurtleParams) (s : TurtleState) :
    step p s '-' = { s with
      angle := s.angle - (p.angle_deg +
        uniform (-p.angle_variation_deg) p.angle_variation_deg (p.rand s.k))
      k := s.k + 1 } := by
  simp [step]

/-- Command `[` pushes the current position and heading. -/
theorem step_push (p : TurtleParams) (s : TurtleState) :
    step p s '[' = { s with stack := ((s.x, s.y), s.angle) :: s.stack } := by
  simp [step]

/-- Command `]` on a nonempty stack restores the saved position and heading. -/
theorem step_pop_cons (p : TurtleParams) (s : TurtleState)
    (px py pa : ℚ) (rest : List ((ℚ × ℚ) × ℚ)) (h : s.stack = ((px, py), pa) :: rest) :
    step p s ']' = { s with x := px, y := py, angle := pa, stack := rest } := by
  simp [step, h]

/-! ### C10: a non-positive sampled length skips the whole move -/

/-- C10: when a draw command's sampled length `length * uniform(1-f, 1+f, r)`
is `≤ 0`, the step leaves position, heading, stack, segment list and bounds all
unchanged — only the ambient random stream has advanced by one draw. -/
theorem step_skips_nonpositive_move (p : TurtleParams) (s : TurtleState) (c : Char)
    (hc : c = 'F' ∨ c = 'A' ∨ c = 'B')
    (hlen : p.length * uniform (1 - p.length_variation_factor)
      (1 + p.length_variation_factor) (p.rand s.k) ≤ 0) :
    step p s c = { s with k := s.k + 1 } := by
  simp only [step, if_pos hc]
  rw [if_neg (not_lt.mpr hlen)]

/-- Witness for C10: with a length jitter factor of 2 and draw 0, the sampled
length is `-1 ≤ 0` and the step only advances the random counter. -/
theorem step_skips_nonpositive_move_witness :
    ('F' = 'F' ∨ 'F' = 'A' ∨ 'F' = 'B') ∧
    badParams.length * uniform (1 - badParams.length_variation_factor)
      (1 + badParams.length_variation_factor)
      (badParams.rand (initTurtle 0 0 0).k) ≤ 0 ∧
    step badParams (initTurtle 0 0 0) 'F' =
      { initTurtle 0 0 0 with k := (initTurtle 0 0 0).k + 1 } :=
  ⟨Or.inl rfl, by norm_num [badParams, uniform],
   step_skips_nonpositive_move badParams (initTurtle 0 0 0) 'F' (Or.inl rfl)
     (by norm_num [badParams, uniform])⟩

/-! ### C7: popping an empty stack is a silent no-op -/

/-- C7: `]` on an empty stack raises no error and changes nothing (position,
heading, stack, segments, bounds all unchanged); consequently a `]` occurring
when the stack is empty can be deleted from the sequence without changing the
result of `interpret`. -/
theorem pop_empty_stack_noop :
    (∀ (p : TurtleParams) (s : TurtleState), s.stack = [] → step p s ']' = s) ∧
    (∀ (p : TurtleParams) (sx sy sa : ℚ) (s₁ s₂ : List Char),
      (List.foldl (step p) (initTurtle sx sy sa) s₁).stack = [] →
      interpret p sx sy sa (s₁ ++ ']' :: s₂) = interpret p sx sy sa (s₁ ++ s₂)) := by
  have h1 : ∀ (p : TurtleParams) (s : TurtleState), s.stack = [] → step p s ']' = s := by
    intro p s hs
    simp [step, hs]
  refine ⟨h1, fun p sx sy sa s₁ s₂ hs => ?_⟩
  simp only [interpret, List.foldl_append, List.foldl_cons]
  rw [h1 p _ hs]

/-- Witness for C7: `"F]F"` interprets exactly like `"FF"`. -/
theorem pop_empty_stack_noop_witness :
    step testParams (initTurtle 0 0 0) ']' = initTurtle 0 0 0 ∧
    interpret testParams 0 0 0 (['F'] ++ ']' :: ['F']) =
      interpret testParams 0 0 0 (['F'] ++ ['F']) := by
  refine ⟨pop_empty_stack_noop.1 testParams _ rfl,
    pop_empty_stack_noop.2 testParams 0 0 0 ['F'] ['F'] ?_⟩
  rw [List.foldl_cons, List.foldl_nil,
    step_draw testParams _ 'F' (Or.inl rfl) (by norm_num [testParams, uniform])]
  simp [move_forward, initTurtle]

/-- Witness for C1 (amended) at viewport 800×600, padding 50, with degenerate
bounds `(0,0,0,2)` and `(0,0,2,0)`. -/
theorem degenerate_scale_formulas_witness :
    (calcScaleOffset ⟨800, 600, 50⟩ (0, 0, 0, 2)).1 =
      min 1 (((600 : ℚ) - 2 * 50) / (2 - 0)) ∧
    (calcScaleOffset ⟨800, 600, 50⟩ (0, 0, 2, 0)).1 =
      min (((800 : ℚ) - 2 * 50) / (2 - 0)) 1 ∧
    vizScaleFactor 800 600 (0, 0, 0, 2) = ((600 : ℚ) - 2 * DRAWING_PADDING) / (2 - 0) ∧
    vizScaleFactor 800 600 (0, 0, 2, 0) = ((800 : ℚ) - 2 * DRAWING_PADDING) / (2 - 0) :=
  ⟨(degenerate_scale_formulas ⟨800, 600, 50⟩ 800 600 0 0 0 2).1 (by norm_num) (by norm_num),
   (degenerate_scale_formulas ⟨800, 600, 50⟩ 800 600 0 0 2 0).2.1 (by norm_num) (by norm_num),
   (degenerate_scale_formulas ⟨800, 600, 50⟩ 800 600 0 0 0 2).2.2.1 (by norm_num) (by norm_num),
   (degenerate_scale_formulas ⟨800, 600, 50⟩ 800 600 0 0 2 0).2.2.2 (by norm_num) (by norm_num)⟩



/-! ### C4: fit-transform round trip -/

/-- C4: for non-degenerate bounds and a positive drawable area, applying the
computed `(scale, offset)` as `point * scale + offset` maps both bounds corners
into `[padding, viewport_dim - padding]` on both axes (exact arithmetic). -/
theorem fit_transform_round_trip (r : Renderer) (min_x min_y max_x max_y : ℚ)
    (hw : 0 < max_x - min_x) (hh : 0 < max_y - min_y)
    (hdw : 0 < r.screen_width - 2 * r.padding)
    (hdh : 0 < r.screen_height - 2 * r.padding) :
    ((calcScaleOffset r (min_x, min_y, max_x, max_y)).1 > 0) ∧
    (r.padding ≤ min_x * (calcScaleOffset r (min_x, min_y, max_x, max_y)).1 +
        (calcScaleOffset r (min_x, min_y, max_x, max_y)).2.1 ∧
      min_x * (calcScaleOffset r (min_x, min_y, max_x, max_y)).1 +
        (calcScaleOffset r (min_x, min_y, max_x, max_y)).2.1 ≤
        r.screen_width - r.padding) ∧
    (r.padding ≤ max_x * (calcScaleOffset r (min_x, min_y, max_x, max_y)).1 +
        (calcScaleOffset r (min_x, min_y, max_x, max_y)).2.1 ∧
      max_x * (calcScaleOffset r (min_x, min_y, max_x, max_y)).1 +
        (calcScaleOffset r (min_x, min_y, max_x, max_y)).2.1 ≤
        r.screen_width - r.padding) ∧
    (r.padding ≤ min_y * (calcScaleOffset r (min_x, min_y, max_x, max_y)).1 +
        (calcScaleOffset r (min_x, min_y, max_x, max_y)).2.2 ∧
      min_y * (calcScaleOffset r (min_x, min_y, max_x, max_y)).1 +
        (calcScaleOffset r (min_x, min_y, max_x, max_y)).2.2 ≤
        r.screen_height - r.padding) ∧
    (r.padding ≤ max_y * (calcScaleOffset r (min_x, min_y, max_x, max_y)).1 +
        (calcScaleOffset r (min_x, min_y, max_x, max_y)).2.2 ∧
      max_y * (calcScaleOffset r (min_x, min_y, max_x, max_y)).1 +
        (calcScaleOffset r (min_x, min_y, max_x, max_y)).2.2 ≤
        r.screen_height - r.padding) := by
  have hsx : (0 : ℚ) < (r.screen_width - 2 * r.padding) / (max_x - min_x) :=
    div_pos hdw hw
  have hsy : (0 : ℚ) < (r.screen_height - 2 * r.padding) / (max_y - min_y) :=
    div_pos hdh hh
  simp only [calcScaleOffset, if_pos hw, if_pos hh]
  set s := min ((r.screen_width - 2 * r.padding) / (max_x - min_x))
    ((r.screen_height - 2 * r.padding) / (max_y - min_y)) with hs_def
  have hs : 0 < s := lt_min hsx hsy
  have hws : (max_x - min_x) * s ≤ r.screen_width - 2 * r.padding := by
    have h1 : s ≤ (r.screen_width - 2 * r.padding) / (max_x - min_x) := min_le_left _ _
    calc (max_x - min_x) * s
        ≤ (max_x - min_x) * ((r.screen_width - 2 * r.padding) / (max_x - min_x)) :=
          mul_le_mul_of_nonneg_left h1 hw.le
      _ = r.screen_width - 2 * r.padding := mul_div_cancel₀ _ hw.ne.symm
  have hhs : (max_y - min_y) * s ≤ r.screen_height - 2 * r.padding := by
    have h1 : s ≤ (r.screen_height - 2 * r.padding) / (max_y - min_y) := min_le_right _ _
    calc (max_y - min_y) * s
        ≤ (max_y - min_y) * ((r.screen_height - 2 * r.padding) / (max_y - min_y)) :=
          mul_le_mul_of_nonneg_left h1 hh.le
      _ = r.screen_height - 2 * r.padding := mul_div_cancel₀ _ hh.ne.symm
  have hwpos : 0 < (max_x - min_x) * s := mul_pos hw hs
  have hhpos : 0 < (max_y - min_y) * s := mul_pos hh hs
  refine ⟨hs, ⟨by nlinarith, by nlinarith⟩, ⟨by nlinarith, by nlinarith⟩,
    ⟨by nlinarith, by nlinarith⟩, ⟨by nlinarith, by nlinarith⟩⟩

/-- Witness for C4 at viewport 800×600, padding 50, bounds `(0, 0, 2, 1)`. -/
theorem fit_transform_round_trip_witness :
    ((calcScaleOffset ⟨800, 600, 50⟩ (0, 0, 2, 1)).1 > 0) ∧
    ((50 : ℚ) ≤ 0 * (calcScaleOffset ⟨800, 600, 50⟩ (0, 0, 2, 1)).1 +
        (calcScaleOffset ⟨800, 600, 50⟩ (0, 0, 2, 1)).2.1 ∧
      0 * (calcScaleOffset ⟨800, 600, 50⟩ (0, 0, 2, 1)).1 +
        (calcScaleOffset ⟨800, 600, 50⟩ (0, 0, 2, 1)).2.1 ≤ (800 : ℚ) - 50) ∧
    ((50 : ℚ) ≤ 2 * (calcScaleOffset ⟨800, 600, 50⟩ (0, 0, 2, 1)).1 +
        (calcScaleOffset ⟨800, 600, 50⟩ (0, 0, 2, 1)).2.1 ∧
      2 * (calcScaleOffset ⟨800, 600, 50⟩ (0, 0, 2, 1)).1 +
        (calcScaleOffset ⟨800, 600, 50⟩ (0, 0, 2, 1)).2.1 ≤ (800 : ℚ) - 50) ∧
    ((50 : ℚ) ≤ 0 * (calcScaleOffset ⟨800, 600, 50⟩ (0, 0, 2, 1)).1 +
        (calcScaleOffset ⟨800, 600, 50⟩ (0, 0, 2, 1)).2.2 ∧
      0 * (calcScaleOffset ⟨800, 600, 50⟩ (0, 0, 2, 1)).1 +
        (calcScaleOffset ⟨800, 600, 50⟩ (0, 0, 2, 1)).2.2 ≤ (600 : ℚ) - 50) ∧
    ((50 : ℚ) ≤ 1 * (calcScaleOffset ⟨800, 600, 50⟩ (0, 0, 2, 1)).1 +
        (calcScaleOffset ⟨800, 600, 50⟩ (0, 0, 2, 1)).2.2 ∧
      1 * (calcScaleOffset ⟨800, 600, 50⟩ (0, 0, 2, 1)).1 +
        (calcScaleOffset ⟨800, 600, 50⟩ (0, 0, 2, 1)).2.2 ≤ (600 : ℚ) - 50) :=
  fit_transform_round_trip ⟨800, 600, 50⟩ 0 0 2 1
    (by norm_num) (by norm_num) (by norm_num) (by norm_num)


/-! ### Invariant machinery for the bounds claims -/

/-- Changing only the heading and the random counter preserves the invariant. -/
theorem inv_set_angle_k (s : TurtleState) (a : ℚ) (n : ℕ) (h : Inv s) :
    Inv { s with angle := a, k := n } := h

/-- Changing only the random counter preserves the invariant. -/
theorem inv_set_k (s : TurtleState) (n : ℕ) (h : Inv s) :
    Inv { s with k := n } := h

/-- Moving forward preserves the invariant: the bounds are widened with the new
position, so the old contents and the new segment are all enclosed. -/
theorem inv_move_forward (p : TurtleParams) (len : ℚ) (s : TurtleState) (h : Inv s) :
    Inv (move_forward p len s) := by
  obtain ⟨⟨hx1, hx2, hy1, hy2⟩, hstack, hsegs⟩ := h
  simp only [Inv, encl, move_forward]
  refine ⟨⟨min_le_right _ _, le_max_right _ _, min_le_right _ _, le_max_right _ _⟩,
    ?_, ?_⟩
  · intro e he
    obtain ⟨a1, a2, a3, a4⟩ := hstack e he
    exact ⟨le_trans (min_le_left _ _) a1, le_trans a2 (le_max_left _ _),
      le_trans (min_le_left _ _) a3, le_trans a4 (le_max_left _ _)⟩
  · intro g hg
    rcases List.mem_append.mp hg with hg | hg
    · obtain ⟨⟨a1, a2, a3, a4⟩, b1, b2, b3, b4⟩ := hsegs g hg
      exact ⟨⟨le_trans (min_le_left _ _) a1, le_trans a2 (le_max_left _ _),
        le_trans (min_le_left _ _) a3, le_trans a4 (le_max_left _ _)⟩,
        le_trans (min_le_left _ _) b1, le_trans b2 (le_max_left _ _),
        le_trans (min_le_left _ _) b3, le_trans b4 (le_max_left _ _)⟩
    · obtain rfl := List.mem_singleton.mp hg
      exact ⟨⟨le_trans (min_le_left _ _) hx1, le_trans hx2 (le_max_left _ _),
        le_trans (min_le_left _ _) hy1, le_trans hy2 (le_max_left _ _)⟩,
        min_le_right _ _, le_max_right _ _, min_le_right _ _, le_max_right _ _⟩

/-- Pushing the current state preserves the invariant. -/
theorem inv_push (s : TurtleState) (h : Inv s) :
    Inv { s with stack := ((s.x, s.y), s.angle) :: s.stack } := by
  obtain ⟨hc, hstack, hsegs⟩ := h
  refine ⟨hc, ?_, hsegs⟩
  intro e he
  rcases List.mem_cons.mp he with rfl | he
  · exact hc
  · exact hstack e he

/-- Restoring a saved state preserves the invariant: the saved position was
recorded inside the bounds when it was pushed and the bounds never shrink. -/
theorem inv_pop (s : TurtleState) (px py pa : ℚ) (rest : List ((ℚ × ℚ) × ℚ))
    (hst : s.stack = ((px, py), pa) :: rest) (h : Inv s) :
    Inv { s with x := px, y := py, angle := pa, stack := rest } := by
  obtain ⟨hc, hstack, hsegs⟩ := h
  refine ⟨?_, ?_, hsegs⟩
  · exact hstack ((px, py), pa) (by rw [hst]; exact List.mem_cons_self _ _)
  · intro e he
    exact hstack e (by rw [hst]; exact List.mem_cons_of_mem _ he)

/-- Every single interpreter step preserves the invariant. -/
theorem inv_step (p : TurtleParams) (s : TurtleState) (c : Char) (h : Inv s) :
    Inv (step p s c) := by
  simp only [step]
  split_ifs with h1 h2 h3 h4 h5
  · exact inv_move_forward _ _ _ (inv_set_k s _ h)
  · exact inv_set_k s _ h
  · exact inv_set_angle_k s _ _ h
  · exact inv_set_angle_k s _ _ h
  · exact inv_push s h
  · cases hst : s.stack with
    | nil => exact h
    | cons e rest =>
        obtain ⟨⟨px, py⟩, pa⟩ := e
        exact inv_pop s px py pa rest hst h
  · exact h

/-- The invariant holds after `reset`. -/
theorem inv_init (sx sy sa : ℚ) : Inv (initTurtle sx sy sa) := by
  simp [Inv, encl, initTurtle]

/-- The invariant is preserved by the whole command loop. -/
theorem inv_foldl (p : TurtleParams) (seq : List Char) (s : TurtleState) (h : Inv s) :
    Inv (List.foldl (step p) s seq) := by
  induction seq generalizing s with
  | nil => exact h
  | cons c cs ih => exact ih _ (inv_step p s c h)

/-- Unfolding of `interpret`: the segments and bounds of the final fold state, with
each degenerate bounds axis widened by one. -/
theorem interpret_eq (p : TurtleParams) (sx sy sa : ℚ) (seq : List Char) :
    interpret p sx sy sa seq =
      ((List.foldl (step p) (initTurtle sx sy sa) seq).drawing_commands,
       ((List.foldl (step p) (initTurtle sx sy sa) seq).min_x,
        (List.foldl (step p) (initTurtle sx sy sa) seq).min_y,
        (if (List.foldl (step p) (initTurtle sx sy sa) seq).min_x =
            (List.foldl (step p) (initTurtle sx sy sa) seq).max_x
         then (List.foldl (step p) (initTurtle sx sy sa) seq).max_x + 1
         else (List.foldl (step p) (initTurtle sx sy sa) seq).max_x),
        (if (List.foldl (step p) (initTurtle sx sy sa) seq).min_y =
            (List.foldl (step p) (initTurtle sx sy sa) seq).max_y
         then (List.foldl (step p) (initTurtle sx sy sa) seq).max_y + 1
         else (List.foldl (step p) (initTurtle sx sy sa) seq).max_y))) := rfl

/-- Command `]` never changes the bounds or the emitted segments (helper shared with
the claims about bounds). -/
theorem step_pop_preserves_bounds (p : TurtleParams) (s : TurtleState) :
    (step p s ']').min_x = s.min_x ∧ (step p s ']').max_x = s.max_x ∧
    (step p s ']').min_y = s.min_y ∧ (step p s ']').max_y = s.max_y ∧
    (step p s ']').drawing_commands = s.drawing_commands := by
  cases hst : s.stack with
  | nil => simp [step, hst]
  | cons e rest =>
      rw [step_pop_cons p s e.1.1 e.1.2 e.2 rest (by rw [hst])]
      exact ⟨rfl, rfl, rfl, rfl, rfl⟩

/-! ### C3: bounds enclose every segment endpoint; popping never widens them -/

/-- C3: every endpoint of every segment returned by `interpret` lies inside the
returned bounds rectangle, and executing `]` never changes the tracked bounds
(or the segment list). -/
theorem bounds_enclose_segments (p : TurtleParams) (sx sy sa : ℚ) (seq : List Char) :
    (∀ g ∈ (interpret p sx sy sa seq).1,
      ((interpret p sx sy sa seq).2.1 ≤ g.1.1 ∧
        g.1.1 ≤ (interpret p sx sy sa seq).2.2.2.1 ∧
        (interpret p sx sy sa seq).2.2.1 ≤ g.1.2 ∧
        g.1.2 ≤ (interpret p sx sy sa seq).2.2.2.2) ∧
      ((interpret p sx sy sa seq).2.1 ≤ g.2.1 ∧
        g.2.1 ≤ (interpret p sx sy sa seq).2.2.2.1 ∧
        (interpret p sx sy sa seq).2.2.1 ≤ g.2.2 ∧
        g.2.2 ≤ (interpret p sx sy sa seq).2.2.2.2)) ∧
    (∀ s : TurtleState, (step p s ']').min_x = s.min_x ∧
      (step p s ']').max_x = s.max_x ∧ (step p s ']').min_y = s.min_y ∧
      (step p s ']').max_y = s.max_y) := by
  refine ⟨?_, fun s => ⟨(step_pop_preserves_bounds p s).1,
    (step_pop_preserves_bounds p s).2.1, (step_pop_preserves_bounds p s).2.2.1,
    (step_pop_preserves_bounds p s).2.2.2.1⟩⟩
  intro g hg
  obtain ⟨_, _, hsegs⟩ := inv_foldl p seq (initTurtle sx sy sa) (inv_init sx sy sa)
  rw [interpret_eq] at hg ⊢
  simp only at hg ⊢
  have hmx : (List.foldl (step p) (initTurtle sx sy sa) seq).max_x ≤
      (if (List.foldl (step p) (initTurtle sx sy sa) seq).min_x =
          (List.foldl (step p) (initTurtle sx sy sa) seq).max_x
       then (List.foldl (step p) (initTurtle sx sy sa) seq).max_x + 1
       else (List.foldl (step p) (initTurtle sx sy sa) seq).max_x) := by
    split <;> linarith
  have hmy : (List.foldl (step p) (initTurtle sx sy sa) seq).max_y ≤
      (if (List.foldl (step p) (initTurtle sx sy sa) seq).min_y =
          (List.foldl (step p) (initTurtle sx sy sa) seq).max_y
       then (List.foldl (step p) (initTurtle sx sy sa) seq).max_y + 1
       else (List.foldl (step p) (initTurtle sx sy sa) seq).max_y) := by
    split <;> linarith
  obtain ⟨⟨a1, a2, a3, a4⟩, b1, b2, b3, b4⟩ := hsegs g hg
  exact ⟨⟨a1, le_trans a2 hmx, a3, le_trans a4 hmy⟩,
    b1, le_trans b2 hmx, b3, le_trans b4 hmy⟩


/-- Concrete evaluation: one `F` with the jitter-free test parameters draws the
single segment `(0,0)-(5,0)` and returns bounds `(0, 0, 5, 1)` (the degenerate
y-axis is widened by one). -/
theorem interpret_single_F :
    interpret testParams 0 0 0 ['F'] = ([((0, 0), (5, 0))], (0, 0, 5, 1)) := by
  rw [interpret_eq, List.foldl_cons, List.foldl_nil,
    step_draw testParams _ 'F' (Or.inl rfl) (by norm_num [testParams, uniform])]
  norm_num [move_forward, initTurtle, testParams, uniform]

/-- Witness for C3: both endpoints of the segment `((0,0),(5,0))` produced by
interpreting `"F"` lie inside the returned bounds `(0, 0, 5, 1)`, and `]` at
the initial state leaves the bounds unchanged. -/
theorem bounds_enclose_segments_witness :
    (((interpret testParams 0 0 0 ['F']).2.1 ≤ (0 : ℚ) ∧
      (0 : ℚ) ≤ (interpret testParams 0 0 0 ['F']).2.2.2.1 ∧
      (interpret testParams 0 0 0 ['F']).2.2.1 ≤ (0 : ℚ) ∧
      (0 : ℚ) ≤ (interpret testParams 0 0 0 ['F']).2.2.2.2) ∧
     ((interpret testParams 0 0 0 ['F']).2.1 ≤ (5 : ℚ) ∧
      (5 : ℚ) ≤ (interpret testParams 0 0 0 ['F']).2.2.2.1 ∧
      (interpret testParams 0 0 0 ['F']).2.2.1 ≤ (0 : ℚ) ∧
      (0 : ℚ) ≤ (interpret testParams 0 0 0 ['F']).2.2.2.2)) ∧
    ((step testParams (initTurtle 0 0 0) ']').min_x = (initTurtle 0 0 0).min_x ∧
      (step testParams (initTurtle 0 0 0) ']').max_x = (initTurtle 0 0 0).max_x ∧
      (step testParams (initTurtle 0 0 0) ']').min_y = (initTurtle 0 0 0).min_y ∧
      (step testParams (initTurtle 0 0 0) ']').max_y = (initTurtle 0 0 0).max_y) :=
  ⟨(bounds_enclose_segments testParams 0 0 0 ['F']).1 ((0, 0), (5, 0))
      (by rw [interpret_single_F]; exact List.mem_singleton.mpr rfl),
   (bounds_enclose_segments testParams 0 0 0 ['F']).2 (initTurtle 0 0 0)⟩

/-! ### C6: returned bounds are strictly non-degenerate -/

/-- C6: for every input sequence (the empty one included) the bounds returned
by `interpret` satisfy `min_x < max_x` and `min_y < max_y` strictly, and an
axis whose tracked min equals its tracked max has its max incremented by
exactly 1. -/
theorem bounds_nondegenerate (p : TurtleParams) (sx sy sa : ℚ) (seq : List Char) :
    ((interpret p sx sy sa seq).2.1 < (interpret p sx sy sa seq).2.2.2.1 ∧
      (interpret p sx sy sa seq).2.2.1 < (interpret p sx sy sa seq).2.2.2.2) ∧
    ((List.foldl (step p) (initTurtle sx sy sa) seq).min_x =
        (List.foldl (step p) (initTurtle sx sy sa) seq).max_x →
      (interpret p sx sy sa seq).2.2.2.1 =
        (List.foldl (step p) (initTurtle sx sy sa) seq).max_x + 1) ∧
    ((List.foldl (step p) (initTurtle sx sy sa) seq).min_y =
        (List.foldl (step p) (initTurtle sx sy sa) seq).max_y →
      (interpret p sx sy sa seq).2.2.2.2 =
        (List.foldl (step p) (initTurtle sx sy sa) seq).max_y + 1) := by
  obtain ⟨⟨hx1, hx2, hy1, hy2⟩, -, -⟩ :=
    inv_foldl p seq (initTurtle sx sy sa) (inv_init sx sy sa)
  rw [interpret_eq]
  simp only
  refine ⟨⟨?_, ?_⟩, fun hx => by rw [if_pos hx], fun hy => by rw [if_pos hy]⟩
  · by_cases h : (List.foldl (step p) (initTurtle sx sy sa) seq).min_x =
        (List.foldl (step p) (initTurtle sx sy sa) seq).max_x
    · rw [if_pos h]
      linarith
    · rw [if_neg h]
      exact lt_of_le_of_ne (le_trans hx1 hx2) h
  · by_cases h : (List.foldl (step p) (initTurtle sx sy sa) seq).min_y =
        (List.foldl (step p) (initTurtle sx sy sa) seq).max_y
    · rw [if_pos h]
      linarith
    · rw [if_neg h]
      exact lt_of_le_of_ne (le_trans hy1 hy2) h

/-- Witness for C6 on the empty sequence: both axes are degenerate after the
pass (bounds collapsed to the start point) and both maxes are incremented by
exactly 1, giving the strict rectangle `(0, 0, 1, 1)`. -/
theorem bounds_nondegenerate_witness :
    ((interpret testParams 0 0 0 []).2.1 < (interpret testParams 0 0 0 []).2.2.2.1 ∧
      (interpret testParams 0 0 0 []).2.2.1 < (interpret testParams 0 0 0 []).2.2.2.2) ∧
    (interpret testParams 0 0 0 []).2.2.2.1 =
      (List.foldl (step testParams) (initTurtle 0 0 0) []).max_x + 1 ∧
    (interpret testParams 0 0 0 []).2.2.2.2 =
      (List.foldl (step testParams) (initTurtle 0 0 0) []).max_y + 1 :=
  ⟨(bounds_nondegenerate testParams 0 0 0 []).1,
   (bounds_nondegenerate testParams 0 0 0 []).2.1 rfl,
   (bounds_nondegenerate testParams 0 0 0 []).2.2 rfl⟩

/-! ### C8: bracket balance on `"F[F]F"` -/

/-- Counterexample for C8 as stated over every jitter setting: with step length
`1 > 0` but length jitter factor `2`, the draw `0` samples the multiplier
`uniform(-1, 3, 0) = -1`, every forward move has `current_length ≤ 0` and is
skipped, and `"F[F]F"` produces zero segments instead of three. -/
theorem bracket_balance_counterexample :
    (0 : ℚ) < badParams.length ∧
    (interpret badParams 0 0 0 ['F', '[', 'F', ']', 'F']).1.length ≠ 3 := by
  have hskip : ∀ s : TurtleState, step badParams s 'F' = { s with k := s.k + 1 } := by
    intro s
    have hlen : badParams.length * uniform (1 - badParams.length_variation_factor)
        (1 + badParams.length_variation_factor) (badParams.rand s.k) ≤ 0 := by
      norm_num [badParams, uniform]
    simp only [step, true_or, if_true]
    rw [if_neg (not_lt.mpr hlen)]
  have e1 : step badParams (initTurtle 0 0 0) 'F' = ({ x := 0, y := 0, angle := 0, stack := [], drawing_commands := [], min_x := 0, max_x := 0, min_y := 0, max_y := 0, k := 1 } : TurtleState) := by rw [hskip]; try rfl
  have e2 : step badParams ({ x := 0, y := 0, angle := 0, stack := [], drawing_commands := [], min_x := 0, max_x := 0, min_y := 0, max_y := 0, k := 1 } : TurtleState) '[' = ({ x := 0, y := 0, angle := 0, stack := [((0, 0), 0)], drawing_commands := [], min_x := 0, max_x := 0, min_y := 0, max_y := 0, k := 1 } : TurtleState) := by rw [step_push]; try rfl
  have e3 : step badParams ({ x := 0, y := 0, angle := 0, stack := [((0, 0), 0)], drawing_commands := [], min_x := 0, max_x := 0, min_y := 0, max_y := 0, k := 1 } : TurtleState) 'F' = ({ x := 0, y := 0, angle := 0, stack := [((0, 0), 0)], drawing_commands := [], min_x := 0, max_x := 0, min_y := 0, max_y := 0, k := 2 } : TurtleState) := by rw [hskip]; try rfl
  have e4 : step badParams ({ x := 0, y := 0, angle := 0, stack := [((0, 0), 0)], drawing_commands := [], min_x := 0, max_x := 0, min_y := 0, max_y := 0, k := 2 } : TurtleState) ']' = ({ x := 0, y := 0, angle := 0, stack := [], drawing_commands := [], min_x := 0, max_x := 0, min_y := 0, max_y := 0, k := 2 } : TurtleState) := by
    rw [step_pop_cons badParams _ 0 0 0 [] rfl]; try rfl
  have e5 : step badParams ({ x := 0, y := 0, angle := 0, stack := [], drawing_commands := [], min_x := 0, max_x := 0, min_y := 0, max_y := 0, k := 2 } : TurtleState) 'F' = ({ x := 0, y := 0, angle := 0, stack := [], drawing_commands := [], min_x := 0, max_x := 0, min_y := 0, max_y := 0, k := 3 } : TurtleState) := by rw [hskip]; try rfl
  have hfold : List.foldl (step badParams) (initTurtle 0 0 0) ['F', '[', 'F', ']', 'F'] =
      ({ x := 0, y := 0, angle := 0, stack := [], drawing_commands := [], min_x := 0, max_x := 0, min_y := 0, max_y := 0, k := 3 } : TurtleState) := by
    simp only [List.foldl_cons, List.foldl_nil]
    rw [e1, e2, e3, e4, e5]
  refine ⟨by norm_num [badParams], ?_⟩
  rw [interpret_eq, hfold]
  decide

/-- The full run of `"F[F]F"` from a fresh turtle, with every sampled length
positive: three draws at random indices 0, 1, 2, a push before the second draw
and a pop after it restoring the end point of the first segment. -/
theorem foldl_FbrF (p : TurtleParams) (sx sy sa : ℚ)
    (hpos : ∀ n : ℕ, 0 < p.length * uniform (1 - p.length_variation_factor)
      (1 + p.length_variation_factor) (p.rand n)) :
    List.foldl (step p) (initTurtle sx sy sa) ['F', '[', 'F', ']', 'F'] =
      ({ x := (sx + (p.length * uniform (1 - p.length_variation_factor) (1 + p.length_variation_factor) (p.rand 0)) * p.cosD sa) + (p.length * uniform (1 - p.length_variation_factor) (1 + p.length_variation_factor) (p.rand 2)) * p.cosD sa, y := (sy - (p.length * uniform (1 - p.length_variation_factor) (1 + p.length_variation_factor) (p.rand 0)) * p.sinD sa) - (p.length * uniform (1 - p.length_variation_factor) (1 + p.length_variation_factor) (p.rand 2)) * p.sinD sa, angle := sa, stack := [], drawing_commands := [((sx, sy), ((sx + (p.length * uniform (1 - p.length_variation_factor) (1 + p.length_variation_factor) (p.rand 0)) * p.cosD sa), (sy - (p.length * uniform (1 - p.length_variation_factor) (1 + p.length_variation_factor) (p.rand 0)) * p.sinD sa))), (((sx + (p.length * uniform (1 - p.length_variation_factor) (1 + p.length_variation_factor) (p.rand 0)) * p.cosD sa), (sy - (p.length * uniform (1 - p.length_variation_factor) (1 + p.length_variation_factor) (p.rand 0)) * p.sinD sa)), (((sx + (p.length * uniform (1 - p.length_variation_factor) (1 + p.length_variation_factor) (p.rand 0)) * p.cosD sa) + (p.length * uniform (1 - p.length_variation_factor) (1 + p.length_variation_factor) (p.rand 1)) * p.cosD sa), ((sy - (p.length * uniform (1 - p.length_variation_factor) (1 + p.length_variation_factor) (p.rand 0)) * p.sinD sa) - (p.length * uniform (1 - p.length_variation_factor) (1 + p.length_variation_factor) (p.rand 1)) * p.sinD sa))), (((sx + (p.length * uniform (1 - p.length_variation_factor) (1 + p.length_variation_factor) (p.rand 0)) * p.cosD sa), (sy - (p.length * uniform (1 - p.length_variation_factor) (1 + p.length_variation_factor) (p.rand 0)) * p.sinD sa)), (((sx + (p.length * uniform (1 - p.length_variation_factor) (1 + p.length_variation_factor) (p.rand 0)) * p.cosD sa) + (p.length * uniform (1 - p.length_variation_factor) (1 + p.length_variation_factor) (p.rand 2)) * p.cosD sa), ((sy - (p.length * uniform (1 - p.length_variation_factor) (1 + p.length_variation_factor) (p.rand 0)) * p.sinD sa) - (p.length * uniform (1 - p.length_variation_factor) (1 + p.length_variation_factor) (p.rand 2)) * p.sinD sa)))], min_x := min (min (min sx (sx + (p.length * uniform (1 - p.length_variation_factor) (1 + p.length_variation_factor) (p.rand 0)) * p.cosD sa)) ((sx + (p.length * uniform (1 - p.length_variation_factor) (1 + p.length_variation_factor) (p.rand 0)) * p.cosD sa) + (p.length * uniform (1 - p.length_variation_factor) (1 + p.length_variation_factor) (p.rand 1)) * p.cosD sa)) ((sx + (p.length * uniform (1 - p.length_variation_factor) (1 + p.length_variation_factor) (p.rand 0)) * p.cosD sa) + (p.length * uniform (1 - p.length_variation_factor) (1 + p.length_variation_factor) (p.rand 2)) * p.cosD sa), max_x := max (max (max sx (sx + (p.length * uniform (1 - p.length_variation_factor) (1 + p.length_variation_factor) (p.rand 0)) * p.cosD sa)) ((sx + (p.length * uniform (1 - p.length_variation_factor) (1 + p.length_variation_factor) (p.rand 0)) * p.cosD sa) + (p.length * uniform (1 - p.length_variation_factor) (1 + p.length_variation_factor) (p.rand 1)) * p.cosD sa)) ((sx + (p.length * uniform (1 - p.length_variation_factor) (1 + p.length_variation_factor) (p.rand 0)) * p.cosD sa) + (p.length * uniform (1 - p.length_variation_factor) (1 + p.length_variation_factor) (p.rand 2)) * p.cosD sa), min_y := min (min (min sy (sy - (p.length * uniform (1 - p.length_variation_factor) (1 + p.length_variation_factor) (p.rand 0)) * p.sinD sa)) ((sy - (p.length * uniform (1 - p.length_variation_factor) (1 + p.length_variation_factor) (p.rand 0)) * p.sinD sa) - (p.length * uniform (1 - p.length_variation_factor) (1 + p.length_variation_factor) (p.rand 1)) * p.sinD sa)) ((sy - (p.length * uniform (1 - p.length_variation_factor) (1 + p.length_variation_factor) (p.rand 0)) * p.sinD sa) - (p.length * uniform (1 - p.length_variation_factor) (1 + p.length_variation_factor) (p.rand 2)) * p.sinD sa), max_y := max (max (max sy (sy - (p.length * uniform (1 - p.length_variation_factor) (1 + p.length_variation_factor) (p.rand 0)) * p.sinD sa)) ((sy - (p.length * uniform (1 - p.length_variation_factor) (1 + p.length_variation_factor) (p.rand 0)) * p.sinD sa) - (p.length * uniform (1 - p.length_variation_factor) (1 + p.length_variation_factor) (p.rand 1)) * p.sinD sa)) ((sy - (p.length * uniform (1 - p.length_variation_factor) (1 + p.length_variation_factor) (p.rand 0)) * p.sinD sa) - (p.length * uniform (1 - p.length_variation_factor) (1 + p.length_variation_factor) (p.rand 2)) * p.sinD sa), k := 3 } : TurtleState) := by
  have e1 : step p (initTurtle sx sy sa) 'F' = ({ x := sx + (p.length * uniform (1 - p.length_variation_factor) (1 + p.length_variation_factor) (p.rand 0)) * p.cosD sa, y := sy - (p.length * uniform (1 - p.length_variation_factor) (1 + p.length_variation_factor) (p.rand 0)) * p.sinD sa, angle := sa, stack := [], drawing_commands := [((sx, sy), ((sx + (p.length * uniform (1 - p.length_variation_factor) (1 + p.length_variation_factor) (p.rand 0)) * p.cosD sa), (sy - (p.length * uniform (1 - p.length_variation_factor) (1 + p.length_variation_factor) (p.rand 0)) * p.sinD sa)))], min_x := min sx (sx + (p.length * uniform (1 - p.length_variation_factor) (1 + p.length_variation_factor) (p.rand 0)) * p.cosD sa), max_x := max sx (sx + (p.length * uniform (1 - p.length_variation_factor) (1 + p.length_variation_factor) (p.rand 0)) * p.cosD sa), min_y := min sy (sy - (p.length * uniform (1 - p.length_variation_factor) (1 + p.length_variation_factor) (p.rand 0)) * p.sinD sa), max_y := max sy (sy - (p.length * uniform (1 - p.length_variation_factor) (1 + p.length_variation_factor) (p.rand 0)) * p.sinD sa), k := 1 } : TurtleState) := by
    rw [step_draw p _ 'F' (Or.inl rfl) (hpos 0)]; try rfl
  have e2 : step p ({ x := sx + (p.length * uniform (1 - p.length_variation_factor) (1 + p.length_variation_factor) (p.rand 0)) * p.cosD sa, y := sy - (p.length * uniform (1 - p.length_variation_factor) (1 + p.length_variation_factor) (p.rand 0)) * p.sinD sa, angle := sa, stack := [], drawing_commands := [((sx, sy), ((sx + (p.length * uniform (1 - p.length_variation_factor) (1 + p.length_variation_factor) (p.rand 0)) * p.cosD sa), (sy - (p.length * uniform (1 - p.length_variation_factor) (1 + p.length_variation_factor) (p.rand 0)) * p.sinD sa)))], min_x := min sx (sx + (p.length * uniform (1 - p.length_variation_factor) (1 + p.length_variation_factor) (p.rand 0)) * p.cosD sa), max_x := max sx (sx + (p.length * uniform (1 - p.length_variation_factor) (1 + p.length_variation_factor) (p.rand 0)) * p.cosD sa), min_y := min sy (sy - (p.length * uniform (1 - p.length_variation_factor) (1 + p.length_variation_factor) (p.rand 0)) * p.sinD sa), max_y := max sy (sy - (p.length * uniform (1 - p.length_variation_factor) (1 + p.length_variation_factor) (p.rand 0)) * p.sinD sa), k := 1 } : TurtleState) '[' = ({ x := sx + (p.length * uniform (1 - p.length_variation_factor) (1 + p.length_variation_factor) (p.rand 0)) * p.cosD sa, y := sy - (p.length * uniform (1 - p.length_variation_factor) (1 + p.length_variation_factor) (p.rand 0)) * p.sinD sa, angle := sa, stack := [(((sx + (p.length * uniform (1 - p.length_variation_factor) (1 + p.length_variation_factor) (p.rand 0)) * p.cosD sa), (sy - (p.length * uniform (1 - p.length_variation_factor) (1 + p.length_variation_factor) (p.rand 0)) * p.sinD sa)), sa)], drawing_commands := [((sx, sy), ((sx + (p.length * uniform (1 - p.length_variation_factor) (1 + p.length_variation_factor) (p.rand 0)) * p.cosD sa), (sy - (p.length * uniform (1 - p.length_variation_factor) (1 + p.length_variation_factor) (p.rand 0)) * p.sinD sa)))], min_x := min sx (sx + (p.length * uniform (1 - p.length_variation_factor) (1 + p.length_variation_factor) (p.rand 0)) * p.cosD sa), max_x := max sx (sx + (p.length * uniform (1 - p.length_variation_factor) (1 + p.length_variation_factor) (p.rand 0)) * p.cosD sa), min_y := min sy (sy - (p.length * uniform (1 - p.length_variation_factor) (1 + p.length_variation_factor) (p.rand 0)) * p.sinD sa), max_y := max sy (sy - (p.length * uniform (1 - p.length_variation_factor) (1 + p.length_variation_factor) (p.rand 0)) * p.sinD sa), k := 1 } : TurtleState) := by rw [step_push]; try rfl
  have e3 : step p ({ x := sx + (p.length * uniform (1 - p.length_variation_factor) (1 + p.length_variation_factor) (p.rand 0)) * p.cosD sa, y := sy - (p.length * uniform (1 - p.length_variation_factor) (1 + p.length_variation_factor) (p.rand 0)) * p.sinD sa, angle := sa, stack := [(((sx + (p.length * uniform (1 - p.length_variation_factor) (1 + p.length_variation_factor) (p.rand 0)) * p.cosD sa), (sy - (p.length * uniform (1 - p.length_variation_factor) (1 + p.length_variation_factor) (p.rand 0)) * p.sinD sa)), sa)], drawing_commands := [((sx, sy), ((sx + (p.length * uniform (1 - p.length_variation_factor) (1 + p.length_variation_factor) (p.rand 0)) * p.cosD sa), (sy - (p.length * uniform (1 - p.length_variation_factor) (1 + p.length_variation_factor) (p.rand 0)) * p.sinD sa)))], min_x := min sx (sx + (p.length * uniform (1 - p.length_variation_factor) (1 + p.length_variation_factor) (p.rand 0)) * p.cosD sa), max_x := max sx (sx + (p.length * uniform (1 - p.length_variation_factor) (1 + p.length_variation_factor) (p.rand 0)) * p.cosD sa), min_y := min sy (sy - (p.length * uniform (1 - p.length_variation_factor) (1 + p.length_variation_factor) (p.rand 0)) * p.sinD sa), max_y := max sy (sy - (p.length * uniform (1 - p.length_variation_factor) (1 + p.length_variation_factor) (p.rand 0)) * p.sinD sa), k := 1 } : TurtleState) 'F' = ({ x := (sx + (p.length * uniform (1 - p.length_variation_factor) (1 + p.length_variation_factor) (p.rand 0)) * p.cosD sa) + (p.length * uniform (1 - p.length_variation_factor) (1 + p.length_variation_factor) (p.rand 1)) * p.cosD sa, y := (sy - (p.length * uniform (1 - p.length_variation_factor) (1 + p.length_variation_factor) (p.rand 0)) * p.sinD sa) - (p.length * uniform (1 - p.length_variation_factor) (1 + p.length_variation_factor) (p.rand 1)) * p.sinD sa, angle := sa, stack := [(((sx + (p.length * uniform (1 - p.length_variation_factor) (1 + p.length_variation_factor) (p.rand 0)) * p.cosD sa), (sy - (p.length * uniform (1 - p.length_variation_factor) (1 + p.length_variation_factor) (p.rand 0)) * p.sinD sa)), sa)], drawing_commands := [((sx, sy), ((sx + (p.length * uniform (1 - p.length_variation_factor) (1 + p.length_variation_factor) (p.rand 0)) * p.cosD sa), (sy - (p.length * uniform (1 - p.length_variation_factor) (1 + p.length_variation_factor) (p.rand 0)) * p.sinD sa))), (((sx + (p.length * uniform (1 - p.length_variation_factor) (1 + p.length_variation_factor) (p.rand 0)) * p.cosD sa), (sy - (p.length * uniform (1 - p.length_variation_factor) (1 + p.length_variation_factor) (p.rand 0)) * p.sinD sa)), (((sx + (p.length * uniform (1 - p.length_variation_factor) (1 + p.length_variation_factor) (p.rand 0)) * p.cosD sa) + (p.length * uniform (1 - p.length_variation_factor) (1 + p.length_variation_factor) (p.rand 1)) * p.cosD sa), ((sy - (p.length * uniform (1 - p.length_variation_factor) (1 + p.length_variation_factor) (p.rand 0)) * p.sinD sa) - (p.length * uniform (1 - p.length_variation_factor) (1 + p.length_variation_factor) (p.rand 1)) * p.sinD sa)))], min_x := min (min sx (sx + (p.length * uniform (1 - p.length_variation_factor) (1 + p.length_variation_factor) (p.rand 0)) * p.cosD sa)) ((sx + (p.length * uniform (1 - p.length_variation_factor) (1 + p.length_variation_factor) (p.rand 0)) * p.cosD sa) + (p.length * uniform (1 - p.length_variation_factor) (1 + p.length_variation_factor) (p.rand 1)) * p.cosD sa), max_x := max (max sx (sx + (p.length * uniform (1 - p.length_variation_factor) (1 + p.length_variation_factor) (p.rand 0)) * p.cosD sa)) ((sx + (p.length * uniform (1 - p.length_variation_factor) (1 + p.length_variation_factor) (p.rand 0)) * p.cosD sa) + (p.length * uniform (1 - p.length_variation_factor) (1 + p.length_variation_factor) (p.rand 1)) * p.cosD sa), min_y := min (min sy (sy - (p.length * uniform (1 - p.length_variation_factor) (1 + p.length_variation_factor) (p.rand 0)) * p.sinD sa)) ((sy - (p.length * uniform (1 - p.length_variation_factor) (1 + p.length_variation_factor) (p.rand 0)) * p.sinD sa) - (p.length * uniform (1 - p.length_variation_factor) (1 + p.length_variation_factor) (p.rand 1)) * p.sinD sa), max_y := max (max sy (sy - (p.length * uniform (1 - p.length_variation_factor) (1 + p.length_variation_factor) (p.rand 0)) * p.sinD sa)) ((sy - (p.length * uniform (1 - p.length_variation_factor) (1 + p.length_variation_factor) (p.rand 0)) * p.sinD sa) - (p.length * uniform (1 - p.length_variation_factor) (1 + p.length_variation_factor) (p.rand 1)) * p.sinD sa), k := 2 } : TurtleState) := by
    rw [step_draw p _ 'F' (Or.inl rfl) (hpos 1)]; try rfl
  have e4 : step p ({ x := (sx + (p.length * uniform (1 - p.length_variation_factor) (1 + p.length_variation_factor) (p.rand 0)) * p.cosD sa) + (p.length * uniform (1 - p.length_variation_factor) (1 + p.length_variation_factor) (p.rand 1)) * p.cosD sa, y := (sy - (p.length * uniform (1 - p.length_variation_factor) (1 + p.length_variation_factor) (p.rand 0)) * p.sinD sa) - (p.length * uniform (1 - p.length_variation_factor) (1 + p.length_variation_factor) (p.rand 1)) * p.sinD sa, angle := sa, stack := [(((sx + (p.length * uniform (1 - p.length_variation_factor) (1 + p.length_variation_factor) (p.rand 0)) * p.cosD sa), (sy - (p.length * uniform (1 - p.length_variation_factor) (1 + p.length_variation_factor) (p.rand 0)) * p.sinD sa)), sa)], drawing_commands := [((sx, sy), ((sx + (p.length * uniform (1 - p.length_variation_factor) (1 + p.length_variation_factor) (p.rand 0)) * p.cosD sa), (sy - (p.length * uniform (1 - p.length_variation_factor) (1 + p.length_variation_factor) (p.rand 0)) * p.sinD sa))), (((sx + (p.length * uniform (1 - p.length_variation_factor) (1 + p.length_variation_factor) (p.rand 0)) * p.cosD sa), (sy - (p.length * uniform (1 - p.length_variation_factor) (1 + p.length_variation_factor) (p.rand 0)) * p.sinD sa)), (((sx + (p.length * uniform (1 - p.length_variation_factor) (1 + p.length_variation_factor) (p.rand 0)) * p.cosD sa) + (p.length * uniform (1 - p.length_variation_factor) (1 + p.length_variation_factor) (p.rand 1)) * p.cosD sa), ((sy - (p.length * uniform (1 - p.length_variation_factor) (1 + p.length_variation_factor) (p.rand 0)) * p.sinD sa) - (p.length * uniform (1 - p.length_variation_factor) (1 + p.length_variation_factor) (p.rand 1)) * p.sinD sa)))], min_x := min (min sx (sx + (p.length * uniform (1 - p.length_variation_factor) (1 + p.length_variation_factor) (p.rand 0)) * p.cosD sa)) ((sx + (p.length * uniform (1 - p.length_variation_factor) (1 + p.length_variation_factor) (p.rand 0)) * p.cosD sa) + (p.length * uniform (1 - p.length_variation_factor) (1 + p.length_variation_factor) (p.rand 1)) * p.cosD sa), max_x := max (max sx (sx + (p.length * uniform (1 - p.length_variation_factor) (1 + p.length_variation_factor) (p.rand 0)) * p.cosD sa)) ((sx + (p.length * uniform (1 - p.length_variation_factor) (1 + p.length_variation_factor) (p.rand 0)) * p.cosD sa) + (p.length * uniform (1 - p.length_variation_factor) (1 + p.length_variation_factor) (p.rand 1)) * p.cosD sa), min_y := min (min sy (sy - (p.length * uniform (1 - p.length_variation_factor) (1 + p.length_variation_factor) (p.rand 0)) * p.sinD sa)) ((sy - (p.length * uniform (1 - p.length_variation_factor) (1 + p.length_variation_factor) (p.rand 0)) * p.sinD sa) - (p.length * uniform (1 - p.length_variation_factor) (1 + p.length_variation_factor) (p.rand 1)) * p.sinD sa), max_y := max (max sy (sy - (p.length * uniform (1 - p.length_variation_factor) (1 + p.length_variation_factor) (p.rand 0)) * p.sinD sa)) ((sy - (p.length * uniform (1 - p.length_variation_factor) (1 + p.length_variation_factor) (p.rand 0)) * p.sinD sa) - (p.length * uniform (1 - p.length_variation_factor) (1 + p.length_variation_factor) (p.rand 1)) * p.sinD sa), k := 2 } : TurtleState) ']' = ({ x := sx + (p.length * uniform (1 - p.length_variation_factor) (1 + p.length_variation_factor) (p.rand 0)) * p.cosD sa, y := sy - (p.length * uniform (1 - p.length_variation_factor) (1 + p.length_variation_factor) (p.rand 0)) * p.sinD sa, angle := sa, stack := [], drawing_commands := [((sx, sy), ((sx + (p.length * uniform (1 - p.length_variation_factor) (1 + p.length_variation_factor) (p.rand 0)) * p.cosD sa), (sy - (p.length * uniform (1 - p.length_variation_factor) (1 + p.length_variation_factor) (p.rand 0)) * p.sinD sa))), (((sx + (p.length * uniform (1 - p.length_variation_factor) (1 + p.length_variation_factor) (p.rand 0)) * p.cosD sa), (sy - (p.length * uniform (1 - p.length_variation_factor) (1 + p.length_variation_factor) (p.rand 0)) * p.sinD sa)), (((sx + (p.length * uniform (1 - p.length_variation_factor) (1 + p.length_variation_factor) (p.rand 0)) * p.cosD sa) + (p.length * uniform (1 - p.length_variation_factor) (1 + p.length_variation_factor) (p.rand 1)) * p.cosD sa), ((sy - (p.length * uniform (1 - p.length_variation_factor) (1 + p.length_variation_factor) (p.rand 0)) * p.sinD sa) - (p.length * uniform (1 - p.length_variation_factor) (1 + p.length_variation_factor) (p.rand 1)) * p.sinD sa)))], min_x := min (min sx (sx + (p.length * uniform (1 - p.length_variation_factor) (1 + p.length_variation_factor) (p.rand 0)) * p.cosD sa)) ((sx + (p.length * uniform (1 - p.length_variation_factor) (1 + p.length_variation_factor) (p.rand 0)) * p.cosD sa) + (p.length * uniform (1 - p.length_variation_factor) (1 + p.length_variation_factor) (p.rand 1)) * p.cosD sa), max_x := max (max sx (sx + (p.length * uniform (1 - p.length_variation_factor) (1 + p.length_variation_factor) (p.rand 0)) * p.cosD sa)) ((sx + (p.length * uniform (1 - p.length_variation_factor) (1 + p.length_variation_factor) (p.rand 0)) * p.cosD sa) + (p.length * uniform (1 - p.length_variation_factor) (1 + p.length_variation_factor) (p.rand 1)) * p.cosD sa), min_y := min (min sy (sy - (p.length * uniform (1 - p.length_variation_factor) (1 + p.length_variation_factor) (p.rand 0)) * p.sinD sa)) ((sy - (p.length * uniform (1 - p.length_variation_factor) (1 + p.length_variation_factor) (p.rand 0)) * p.sinD sa) - (p.length * uniform (1 - p.length_variation_factor) (1 + p.length_variation_factor) (p.rand 1)) * p.sinD sa), max_y := max (max sy (sy - (p.length * uniform (1 - p.length_variation_factor) (1 + p.length_variation_factor) (p.rand 0)) * p.sinD sa)) ((sy - (p.length * uniform (1 - p.length_variation_factor) (1 + p.length_variation_factor) (p.rand 0)) * p.sinD sa) - (p.length * uniform (1 - p.length_variation_factor) (1 + p.length_variation_factor) (p.rand 1)) * p.sinD sa), k := 2 } : TurtleState) := by
    rw [step_pop_cons p _ (sx + (p.length * uniform (1 - p.length_variation_factor) (1 + p.length_variation_factor) (p.rand 0)) * p.cosD sa) (sy - (p.length * uniform (1 - p.length_variation_factor) (1 + p.length_variation_factor) (p.rand 0)) * p.sinD sa) sa [] rfl]; try rfl
  have e5 : step p ({ x := sx + (p.length * uniform (1 - p.length_variation_factor) (1 + p.length_variation_factor) (p.rand 0)) * p.cosD sa, y := sy - (p.length * uniform (1 - p.length_variation_factor) (1 + p.length_variation_factor) (p.rand 0)) * p.sinD sa, angle := sa, stack := [], drawing_commands := [((sx, sy), ((sx + (p.length * uniform (1 - p.length_variation_factor) (1 + p.length_variation_factor) (p.rand 0)) * p.cosD sa), (sy - (p.length * uniform (1 - p.length_variation_factor) (1 + p.length_variation_factor) (p.rand 0)) * p.sinD sa))), (((sx + (p.length * uniform (1 - p.length_variation_factor) (1 + p.length_variation_factor) (p.rand 0)) * p.cosD sa), (sy - (p.length * uniform (1 - p.length_variation_factor) (1 + p.length_variation_factor) (p.rand 0)) * p.sinD sa)), (((sx + (p.length * uniform (1 - p.length_variation_factor) (1 + p.length_variation_factor) (p.rand 0)) * p.cosD sa) + (p.length * uniform (1 - p.length_variation_factor) (1 + p.length_variation_factor) (p.rand 1)) * p.cosD sa), ((sy - (p.length * uniform (1 - p.length_variation_factor) (1 + p.length_variation_factor) (p.rand 0)) * p.sinD sa) - (p.length * uniform (1 - p.length_variation_factor) (1 + p.length_variation_factor) (p.rand 1)) * p.sinD sa)))], min_x := min (min sx (sx + (p.length * uniform (1 - p.length_variation_factor) (1 + p.length_variation_factor) (p.rand 0)) * p.cosD sa)) ((sx + (p.length * uniform (1 - p.length_variation_factor) (1 + p.length_variation_factor) (p.rand 0)) * p.cosD sa) + (p.length * uniform (1 - p.length_variation_factor) (1 + p.length_variation_factor) (p.rand 1)) * p.cosD sa), max_x := max (max sx (sx + (p.length * uniform (1 - p.length_variation_factor) (1 + p.length_variation_factor) (p.rand 0)) * p.cosD sa)) ((sx + (p.length * uniform (1 - p.length_variation_factor) (1 + p.length_variation_factor) (p.rand 0)) * p.cosD sa) + (p.length * uniform (1 - p.length_variation_factor) (1 + p.length_variation_factor) (p.rand 1)) * p.cosD sa), min_y := min (min sy (sy - (p.length * uniform (1 - p.length_variation_factor) (1 + p.length_variation_factor) (p.rand 0)) * p.sinD sa)) ((sy - (p.length * uniform (1 - p.length_variation_factor) (1 + p.length_variation_factor) (p.rand 0)) * p.sinD sa) - (p.length * uniform (1 - p.length_variation_factor) (1 + p.length_variation_factor) (p.rand 1)) * p.sinD sa), max_y := max (max sy (sy - (p.length * uniform (1 - p.length_variation_factor) (1 + p.length_variation_factor) (p.rand 0)) * p.sinD sa)) ((sy - (p.length * uniform (1 - p.length_variation_factor) (1 + p.length_variation_factor) (p.rand 0)) * p.sinD sa) - (p.length * uniform (1 - p.length_variation_factor) (1 + p.length_variation_factor) (p.rand 1)) * p.sinD sa), k := 2 } : TurtleState) 'F' = ({ x := (sx + (p.length * uniform (1 - p.length_variation_factor) (1 + p.length_variation_factor) (p.rand 0)) * p.cosD sa) + (p.length * uniform (1 - p.length_variation_factor) (1 + p.length_variation_factor) (p.rand 2)) * p.cosD sa, y := (sy - (p.length * uniform (1 - p.length_variation_factor) (1 + p.length_variation_factor) (p.rand 0)) * p.sinD sa) - (p.length * uniform (1 - p.length_variation_factor) (1 + p.length_variation_factor) (p.rand 2)) * p.sinD sa, angle := sa, stack := [], drawing_commands := [((sx, sy), ((sx + (p.length * uniform (1 - p.length_variation_factor) (1 + p.length_variation_factor) (p.rand 0)) * p.cosD sa), (sy - (p.length * uniform (1 - p.length_variation_factor) (1 + p.length_variation_factor) (p.rand 0)) * p.sinD sa))), (((sx + (p.length * uniform (1 - p.length_variation_factor) (1 + p.length_variation_factor) (p.rand 0)) * p.cosD sa), (sy - (p.length * uniform (1 - p.length_variation_factor) (1 + p.length_variation_factor) (p.rand 0)) * p.sinD sa)), (((sx + (p.length * uniform (1 - p.length_variation_factor) (1 + p.length_variation_factor) (p.rand 0)) * p.cosD sa) + (p.length * uniform (1 - p.length_variation_factor) (1 + p.length_variation_factor) (p.rand 1)) * p.cosD sa), ((sy - (p.length * uniform (1 - p.length_variation_factor) (1 + p.length_variation_factor) (p.rand 0)) * p.sinD sa) - (p.length * uniform (1 - p.length_variation_factor) (1 + p.length_variation_factor) (p.rand 1)) * p.sinD sa))), (((sx + (p.length * uniform (1 - p.length_variation_factor) (1 + p.length_variation_factor) (p.rand 0)) * p.cosD sa), (sy - (p.length * uniform (1 - p.length_variation_factor) (1 + p.length_variation_factor) (p.rand 0)) * p.sinD sa)), (((sx + (p.length * uniform (1 - p.length_variation_factor) (1 + p.length_variation_factor) (p.rand 0)) * p.cosD sa) + (p.length * uniform (1 - p.length_variation_factor) (1 + p.length_variation_factor) (p.rand 2)) * p.cosD sa), ((sy - (p.length * uniform (1 - p.length_variation_factor) (1 + p.length_variation_factor) (p.rand 0)) * p.sinD sa) - (p.length * uniform (1 - p.length_variation_factor) (1 + p.length_variation_factor) (p.rand 2)) * p.sinD sa)))], min_x := min (min (min sx (sx + (p.length * uniform (1 - p.length_variation_factor) (1 + p.length_variation_factor) (p.rand 0)) * p.cosD sa)) ((sx + (p.length * uniform (1 - p.length_variation_factor) (1 + p.length_variation_factor) (p.rand 0)) * p.cosD sa) + (p.length * uniform (1 - p.length_variation_factor) (1 + p.length_variation_factor) (p.rand 1)) * p.cosD sa)) ((sx + (p.length * uniform (1 - p.length_variation_factor) (1 + p.length_variation_factor) (p.rand 0)) * p.cosD sa) + (p.length * uniform (1 - p.length_variation_factor) (1 + p.length_variation_factor) (p.rand 2)) * p.cosD sa), max_x := max (max (max sx (sx + (p.length * uniform (1 - p.length_variation_factor) (1 + p.length_variation_factor) (p.rand 0)) * p.cosD sa)) ((sx + (p.length * uniform (1 - p.length_variation_factor) (1 + p.length_variation_factor) (p.rand 0)) * p.cosD sa) + (p.length * uniform (1 - p.length_variation_factor) (1 + p.length_variation_factor) (p.rand 1)) * p.cosD sa)) ((sx + (p.length * uniform (1 - p.length_variation_factor) (1 + p.length_variation_factor) (p.rand 0)) * p.cosD sa) + (p.length * uniform (1 - p.length_variation_factor) (1 + p.length_variation_factor) (p.rand 2)) * p.cosD sa), min_y := min (min (min sy (sy - (p.length * uniform (1 - p.length_variation_factor) (1 + p.length_variation_factor) (p.rand 0)) * p.sinD sa)) ((sy - (p.length * uniform (1 - p.length_variation_factor) (1 + p.length_variation_factor) (p.rand 0)) * p.sinD sa) - (p.length * uniform (1 - p.length_variation_factor) (1 + p.length_variation_factor) (p.rand 1)) * p.sinD sa)) ((sy - (p.length * uniform (1 - p.length_variation_factor) (1 + p.length_variation_factor) (p.rand 0)) * p.sinD sa) - (p.length * uniform (1 - p.length_variation_factor) (1 + p.length_variation_factor) (p.rand 2)) * p.sinD sa), max_y := max (max (max sy (sy - (p.length * uniform (1 - p.length_variation_factor) (1 + p.length_variation_factor) (p.rand 0)) * p.sinD sa)) ((sy - (p.length * uniform (1 - p.length_variation_factor) (1 + p.length_variation_factor) (p.rand 0)) * p.sinD sa) - (p.length * uniform (1 - p.length_variation_factor) (1 + p.length_variation_factor) (p.rand 1)) * p.sinD sa)) ((sy - (p.length * uniform (1 - p.length_variation_factor) (1 + p.length_variation_factor) (p.rand 0)) * p.sinD sa) - (p.length * uniform (1 - p.length_variation_factor) (1 + p.length_variation_factor) (p.rand 2)) * p.sinD sa), k := 3 } : TurtleState) := by
    rw [step_draw p _ 'F' (Or.inl rfl) (hpos 2)]; try rfl
  simp only [List.foldl_cons, List.foldl_nil]
  rw [e1, e2, e3, e4, e5]

/-- C8 (amended): for every jitter setting whose length jitter factor has
absolute value below 1 (so that every sampled length multiplier is positive for
draws in `[0,1]`) and every positive step length, `"F[F]F"` produces exactly
three segments: the second branches from the end point `P1` of the first, and
the third resumes from that same point `P1` (not from the branch endpoint). -/
theorem bracket_balance (p : TurtleParams) (sx sy sa : ℚ)
    (hL : 0 < p.length) (hf : |p.length_variation_factor| < 1)
    (hr : ∀ n : ℕ, 0 ≤ p.rand n ∧ p.rand n ≤ 1) :
    ∃ P1 P2 P3 : ℚ × ℚ,
      (interpret p sx sy sa ['F', '[', 'F', ']', 'F']).1 =
        [((sx, sy), P1), (P1, P2), (P1, P3)] := by
  have hpos : ∀ n : ℕ, 0 < p.length * uniform (1 - p.length_variation_factor)
      (1 + p.length_variation_factor) (p.rand n) := by
    intro n
    obtain ⟨h1, h2⟩ := hr n
    obtain ⟨h3, h4⟩ := abs_lt.mp hf
    refine mul_pos hL ?_
    unfold uniform
    rcases le_or_lt 0 p.length_variation_factor with hf0 | hf0
    · have hq : 0 ≤ 2 * p.length_variation_factor * p.rand n :=
        mul_nonneg (by linarith) h1
      nlinarith
    · have hq : 0 ≤ (-(2 * p.length_variation_factor)) * (1 - p.rand n) :=
        mul_nonneg (by linarith) (by linarith)
      nlinarith
  refine ⟨((sx + (p.length * uniform (1 - p.length_variation_factor) (1 + p.length_variation_factor) (p.rand 0)) * p.cosD sa), (sy - (p.length * uniform (1 - p.length_variation_factor) (1 + p.length_variation_factor) (p.rand 0)) * p.sinD sa)), (((sx + (p.length * uniform (1 - p.length_variation_factor) (1 + p.length_variation_factor) (p.rand 0)) * p.cosD sa) + (p.length * uniform (1 - p.length_variation_factor) (1 + p.length_variation_factor) (p.rand 1)) * p.cosD sa), ((sy - (p.length * uniform (1 - p.length_variation_factor) (1 + p.length_variation_factor) (p.rand 0)) * p.sinD sa) - (p.length * uniform (1 - p.length_variation_factor) (1 + p.length_variation_factor) (p.rand 1)) * p.sinD sa)), (((sx + (p.length * uniform (1 - p.length_variation_factor) (1 + p.length_variation_factor) (p.rand 0)) * p.cosD sa) + (p.length * uniform (1 - p.length_variation_factor) (1 + p.length_variation_factor) (p.rand 2)) * p.cosD sa), ((sy - (p.length * uniform (1 - p.length_variation_factor) (1 + p.length_variation_factor) (p.rand 0)) * p.sinD sa) - (p.length * uniform (1 - p.length_variation_factor) (1 + p.length_variation_factor) (p.rand 2)) * p.sinD sa)), ?_⟩
  rw [interpret_eq, foldl_FbrF p sx sy sa hpos]

/-- Witness for C8 (amended) with the jitter-free test parameters. -/
theorem bracket_balance_witness :
    ∃ P1 P2 P3 : ℚ × ℚ,
      (interpret testParams 0 0 0 ['F', '[', 'F', ']', 'F']).1 =
        [(((0 : ℚ), (0 : ℚ)), P1), (P1, P2), (P1, P3)] :=
  bracket_balance testParams 0 0 0 (by norm_num [testParams])
    (by norm_num [testParams]) (fun n => by norm_num [testParams])


/-! ### Lemmas about the parser primitives (for C5) -/

/-- Splitting always returns at least one fragment. -/
theorem splitOnChar_ne_nil (sep : Char) (l : List Char) : splitOnChar sep l ≠ [] := by
  cases l with
  | nil => simp [splitOnChar]
  | cons a rest =>
      simp only [splitOnChar]
      split
      · simp
      · split <;> simp

/-- Every character of a fragment of `split` is a character of the input. -/
theorem mem_of_mem_splitOnChar (sep : Char) (l : List Char) :
    ∀ frag ∈ splitOnChar sep l, ∀ c ∈ frag, c ∈ l := by
  induction l with
  | nil =>
      intro frag hf c hc
      simp only [splitOnChar, List.mem_singleton] at hf
      subst hf
      simp at hc
  | cons a rest ih =>
      intro frag hf c hc
      cases hrec : splitOnChar sep rest with
      | nil => exact absurd hrec (splitOnChar_ne_nil sep rest)
      | cons f fs =>
          simp only [splitOnChar, hrec] at hf
          by_cases ha : a = sep
          · rw [if_pos ha] at hf
            rcases List.mem_cons.mp hf with rfl | hf
            · simp at hc
            · exact List.mem_cons_of_mem a (ih frag (hrec ▸ hf) c hc)
          · rw [if_neg ha] at hf
            rcases List.mem_cons.mp hf with rfl | hf
            · rcases List.mem_cons.mp hc with rfl | hc
              · exact List.mem_cons_self _ _
              · exact List.mem_cons_of_mem a
                  (ih f (hrec ▸ List.mem_cons_self f fs) c hc)
            · exact List.mem_cons_of_mem a
                (ih frag (hrec ▸ List.mem_cons_of_mem f hf) c hc)

/-- Dropping a whitespace prefix does not affect membership of a
non-whitespace character. -/
theorem mem_dropWhile_iff_of_neg (p : Char → Bool) (c : Char) (hc : p c = false) :
    ∀ l : List Char, c ∈ l.dropWhile p ↔ c ∈ l := by
  intro l
  induction l with
  | nil => simp
  | cons a rest ih =>
      by_cases ha : p a
      · rw [List.dropWhile_cons_of_pos ha, ih, List.mem_cons]
        constructor
        · exact Or.inr
        · rintro (rfl | h)
          · rw [hc] at ha
            exact absurd ha (by simp)
          · exact h
      · rw [List.dropWhile_cons_of_neg ha]

/-- Membership of a non-whitespace character is invariant under `strip`. -/
theorem mem_strip_iff (c : Char) (hc : isSpace c = false) (l : List Char) :
    c ∈ strip l ↔ c ∈ l := by
  unfold strip rstrip lstrip
  rw [List.mem_reverse, mem_dropWhile_iff_of_neg _ c hc, List.mem_reverse,
    mem_dropWhile_iff_of_neg _ c hc]

/-- A fully-whitespace prefix is swallowed by `lstrip`. -/
theorem lstrip_append_all_space (ws l : List Char)
    (h : ∀ c ∈ ws, isSpace c = true) : lstrip (ws ++ l) = lstrip l := by
  induction ws with
  | nil => simp
  | cons a t ih =>
      rw [List.cons_append]
      unfold lstrip
      rw [List.dropWhile_cons_of_pos (h a (List.mem_cons_self a t))]
      exact ih (fun c hc => h c (List.mem_cons_of_mem a hc))

/-- A fully-whitespace suffix is swallowed by `rstrip`. -/
theorem rstrip_append_all_space (l ws : List Char)
    (h : ∀ c ∈ ws, isSpace c = true) : rstrip (l ++ ws) = rstrip l := by
  unfold rstrip
  rw [List.reverse_append,
    lstrip_append_all_space ws.reverse l.reverse
      (fun c hc => h c (List.mem_reverse.mp hc))]

/-- A fully-whitespace prefix is swallowed by `strip`. -/
theorem strip_append_all_space_left (ws l : List Char)
    (h : ∀ c ∈ ws, isSpace c = true) : strip (ws ++ l) = strip l := by
  unfold strip
  rw [lstrip_append_all_space ws l h]

/-- A fully-whitespace suffix is swallowed by `strip`. -/
theorem strip_append_all_space_right (l ws : List Char)
    (h : ∀ c ∈ ws, isSpace c = true) : strip (l ++ ws) = strip l := by
  induction l with
  | nil =>
      rw [List.nil_append]
      unfold strip lstrip
      rw [List.dropWhile_eq_nil_iff.mpr (fun c hc => h c hc)]
      rfl
  | cons a t ih =>
      by_cases ha : isSpace a
      · rw [List.cons_append]
        unfold strip lstrip
        rw [List.dropWhile_cons_of_pos ha, List.dropWhile_cons_of_pos ha]
        exact ih
      · rw [List.cons_append]
        unfold strip lstrip
        rw [List.dropWhile_cons_of_neg ha, List.dropWhile_cons_of_neg ha,
          ← List.cons_append]
        exact rstrip_append_all_space (a :: t) ws h

/-- The input decomposes as its `rstrip` followed by trailing whitespace. -/
theorem rstrip_decomp (l : List Char) :
    ∃ ws, l = rstrip l ++ ws ∧ ∀ c ∈ ws, isSpace c = true := by
  refine ⟨(l.reverse.takeWhile (fun c => isSpace c)).reverse, ?_, ?_⟩
  · have h1 : l.reverse = l.reverse.takeWhile (fun c => isSpace c) ++
        l.reverse.dropWhile (fun c => isSpace c) :=
      (List.takeWhile_append_dropWhile _ _).symm
    have h2 : l = (l.reverse.dropWhile (fun c => isSpace c)).reverse ++
        (l.reverse.takeWhile (fun c => isSpace c)).reverse := by
      conv_lhs => rw [← l.reverse_reverse, h1]
      rw [List.reverse_append]
    exact h2
  · intro c hc
    exact List.mem_takeWhile_imp (List.mem_reverse.mp hc)

/-- Splitting at the first colon skips over a colon-free prefix. -/
theorem splitFirstColon_append_left (ws g : List Char) (h : ':' ∉ ws) :
    splitFirstColon (ws ++ g) =
      (ws ++ (splitFirstColon g).1, (splitFirstColon g).2) := by
  induction ws with
  | nil => simp
  | cons a t ih =>
      have ha : a ≠ ':' := fun hh => h (hh ▸ List.mem_cons_self a t)
      rw [List.cons_append]
      simp only [splitFirstColon]
      rw [if_neg ha, ih (fun hh => h (List.mem_cons_of_mem a hh))]
      simp

/-- A suffix after the first colon-containing part only extends the value. -/
theorem splitFirstColon_append_right (h t : List Char) (hc : ':' ∈ h) :
    splitFirstColon (h ++ t) =
      ((splitFirstColon h).1, (splitFirstColon h).2 ++ t) := by
  induction h with
  | nil => simp at hc
  | cons a rest ih =>
      by_cases ha : a = ':'
      · subst ha
        rw [List.cons_append]
        simp [splitFirstColon]
      · have hcr : ':' ∈ rest := by
          rcases List.mem_cons.mp hc with hh | hh
          · exact absurd hh.symm ha
          · exact hh
        rw [List.cons_append]
        simp only [splitFirstColon]
        rw [if_neg ha, if_neg ha, ih hcr]

/-- The colon test is unaffected by stripping the fragment. -/
theorem colon_mem_strip (frag : List Char) : ':' ∈ strip frag ↔ ':' ∈ frag :=
  mem_strip_iff ':' (by decide) frag

/-- Core step/spec-step agreement: pre-stripping the fragment changes neither
the colon test, nor the trimmed key, nor the trimmed value. -/
theorem parseRulesStep_eq_spec (tbl : List (String × String)) (frag : List Char) :
    parseRulesStep tbl frag = parseRulesSpecStep tbl frag := by
  by_cases hcol : ':' ∈ frag
  · have hcs : ':' ∈ strip frag := (colon_mem_strip frag).mpr hcol
    have hfrag : frag = frag.takeWhile (fun c => isSpace c) ++ lstrip frag :=
      (List.takeWhile_append_dropWhile (fun c => isSpace c) frag).symm
    have hws : ∀ c ∈ frag.takeWhile (fun c => isSpace c), isSpace c = true :=
      fun c hc => List.mem_takeWhile_imp hc
    have hwsc : ':' ∉ frag.takeWhile (fun c => isSpace c) := fun hh => by
      have := hws ':' hh
      exact absurd this (by decide)
    obtain ⟨ws2, hg, hws2⟩ := rstrip_decomp (lstrip frag)
    have hstrip : strip frag = rstrip (lstrip frag) := rfl
    have hcg : ':' ∈ lstrip frag := by
      rcases List.mem_append.mp (hfrag ▸ hcol) with hh | hh
      · exact absurd hh hwsc
      · exact hh
    have hch : ':' ∈ rstrip (lstrip frag) := hstrip ▸ hcs
    have key1 : splitFirstColon frag =
        (frag.takeWhile (fun c => isSpace c) ++ (splitFirstColon (lstrip frag)).1,
          (splitFirstColon (lstrip frag)).2) := by
      conv_lhs => rw [hfrag]
      exact splitFirstColon_append_left _ _ hwsc
    have key2 : splitFirstColon (lstrip frag) =
        ((splitFirstColon (rstrip (lstrip frag))).1,
          (splitFirstColon (rstrip (lstrip frag))).2 ++ ws2) := by
      conv_lhs => rw [hg]
      exact splitFirstColon_append_right _ _ hch
    have hkey : strip (splitFirstColon (strip frag)).1 =
        strip (splitFirstColon frag).1 := by
      rw [key1]
      rw [strip_append_all_space_left _ _ hws, key2, hstrip]
    have hval : strip (splitFirstColon (strip frag)).2 =
        strip (splitFirstColon frag).2 := by
      rw [key1]
      simp only
      rw [key2]
      simp only
      rw [strip_append_all_space_right _ _ hws2, hstrip]
    unfold parseRulesStep parseRulesSpecStep
    rw [if_pos hcs, if_pos hcol]
    simp only
    rw [hkey, hval]
  · have hcs : ':' ∉ strip frag := fun hh => hcol ((colon_mem_strip frag).mp hh)
    unfold parseRulesStep parseRulesSpecStep
    rw [if_neg hcs, if_neg hcol]

/-- The code fold and the spec fold agree fragment by fragment. -/
theorem foldl_parse_eq (frags : List (List Char)) :
    ∀ tbl, List.foldl parseRulesStep tbl frags =
      List.foldl parseRulesSpecStep tbl frags := by
  induction frags with
  | nil => intro tbl; rfl
  | cons f fs ih =>
      intro tbl
      rw [List.foldl_cons, List.foldl_cons, parseRulesStep_eq_spec, ih]

/-- Colon-free fragments are no-ops of the spec step, so filtering them out
first does not change the fold. -/
theorem foldl_spec_filter (frags : List (List Char)) :
    ∀ tbl, List.foldl parseRulesSpecStep tbl frags =
      List.foldl parseRulesSpecStep tbl
        (frags.filter (fun f => decide (':' ∈ f))) := by
  induction frags with
  | nil => intro tbl; rfl
  | cons f fs ih =>
      intro tbl
      by_cases hf : ':' ∈ f
      · rw [List.foldl_cons, List.filter_cons_of_pos (by simpa using hf),
          List.foldl_cons, ih]
      · rw [List.foldl_cons, List.filter_cons_of_neg (by simpa using hf), ih]
        congr 1
        unfold parseRulesSpecStep
        rw [if_neg hf]


/-! ### C5: the rule parser -/

/-- C5: `parse_rules` behaves exactly as specified — it splits on `,`, keeps
only fragments containing `:`, splits each kept fragment at its first `:`,
trims symbol and replacement, discards empty trimmed symbols, and inserts
sequentially so the last duplicate key wins; in particular
`parse("A:1:2") = {A: "1:2"}` and `parse("")`, `parse("nocolon")`,
`parse(",,,")` are all empty, never raising an error. -/
theorem parse_rules_refines_spec :
    (∀ s : String, parse_rules s = parse_rules_spec s) ∧
    parse_rules "A:1:2" = [("A", "1:2")] ∧
    parse_rules "" = [] ∧
    parse_rules "nocolon" = [] ∧
    parse_rules ",,," = [] ∧
    parse_rules "F:a,F:b" = [("F", "b")] := by
  refine ⟨?_, by decide, by decide, by decide, by decide, by decide⟩
  intro s
  unfold parse_rules parse_rules_spec
  by_cases hguard : s.toList = [] ∨ ':' ∉ s.toList
  · rw [if_pos hguard]
    have hfil : (splitOnChar ',' s.toList).filter (fun f => decide (':' ∈ f)) = [] := by
      rw [List.filter_eq_nil_iff]
      intro frag hfrag
      simp only [decide_eq_true_eq]
      intro hcolon
      rcases hguard with hnil | hncol
      · rw [hnil] at hfrag
        simp only [splitOnChar, List.mem_singleton] at hfrag
        subst hfrag
        simp at hcolon
      · exact hncol (mem_of_mem_splitOnChar ',' s.toList frag hfrag ':' hcolon)
    rw [hfil]
    rfl
  · rw [if_neg hguard, foldl_parse_eq, foldl_spec_filter]

end LSystems
